import Mathlib

/-!
Verification development for the command lifecycle core of `brain.py`
(AIChaos): request intake (`trigger`), the generated-code parser
(`generate_lua`), the command ledger (`command_history`) with its
repeat/undo/force-undo operations, the execution queue (`command_queue`),
and the mutable preference store (`user_preferences`).

Python strings are embedded as `List Char`; the mutable module globals
become an explicit `BrainState` threaded through each handler.  The two
external capabilities — the content scanner and the OpenAI code
generator — are inputs to the handlers: the scanner's outcome is the
triple it returns, and the generator's outcome is an `Except` carrying
either the returned message content or the raised exception's message.
With `ENABLE_IMAGES = False` (the checked-in configuration) the scanner
`sanitize_and_scan` is the concrete function embedded below.
-/

/-- A Python string, embedded as its list of characters. -/
def cs (s : String) : List Char := s.data

/-- The characters removed by Python `str.strip()` (ASCII whitespace:
space, tab, LF, CR, VT, FF). -/
def isPySpace (c : Char) : Bool :=
  c = ' ' || c = '\t' || c = '\n' || c = '\r' || c = Char.ofNat 11 || c = Char.ofNat 12

/-- Python `s.strip()`: remove leading and trailing whitespace. -/
def pyStrip (s : List Char) : List Char :=
  ((s.dropWhile isPySpace).reverse.dropWhile isPySpace).reverse

/-- Python substring containment, `sep in s`. -/
def pyContains (sep : List Char) : List Char → Bool
  | [] => sep.isEmpty
  | c :: rest => sep.isPrefixOf (c :: rest) || pyContains sep rest

/-- Python `s.replace(old, "")` for non-empty `old`: remove every
occurrence, scanning left to right.  The fuel argument bounds the
recursion depth; `s.length` always suffices. -/
def pyRemoveAllF (old : List Char) : Nat → List Char → List Char
  | 0, s => s
  | _, [] => []
  | fuel + 1, c :: rest =>
    if old.isPrefixOf (c :: rest) = true then
      pyRemoveAllF old fuel ((c :: rest).drop old.length)
    else
      c :: pyRemoveAllF old fuel rest

/-- Python `s.replace(old, "")` for non-empty `old`. -/
def pyRemoveAll (old s : List Char) : List Char :=
  pyRemoveAllF old s.length s

/-- `completion.choices[0].message.content.replace("```lua", "").replace("```", "").strip()`
(brain.py line 832; the same cleanup is applied at line 1066). -/
def cleanResponse (content : List Char) : List Char :=
  pyStrip (pyRemoveAll (cs "```") (pyRemoveAll (cs "```lua") content))

/-- The undo delimiter `"---UNDO---"` (brain.py line 835). -/
def undoDelim : List Char := cs "---UNDO---"

/-- Split a string at its first occurrence of `sep`: returns the text
before that occurrence and the text after it.  When `sep` does not occur
the whole string is returned as the first component. -/
def splitFirst (sep : List Char) : List Char → List Char × List Char
  | [] => ([], [])
  | c :: rest =>
    if sep.isPrefixOf (c :: rest) = true then
      ([], (c :: rest).drop sep.length)
    else
      let p := splitFirst sep rest
      (c :: p.1, p.2)

/-- Python `code.split("---UNDO---")` (brain.py line 836): cut at every
non-overlapping occurrence, left to right.  Fuel-bounded; `s.length + 1`
always suffices because each cut strictly shortens the remainder. -/
def splitUndoF : Nat → List Char → List (List Char)
  | 0, s => [s]
  | fuel + 1, s =>
    if pyContains undoDelim s = true then
      (splitFirst undoDelim s).1 :: splitUndoF fuel (splitFirst undoDelim s).2
    else [s]

/-- Python `code.split("---UNDO---")`. -/
def splitUndo (s : List Char) : List (List Char) :=
  splitUndoF (s.length + 1) s

/-- `generate_lua` (brain.py lines 809-845), as a function of the external
generator's outcome.  The composed prompt (current map, sanitized request,
optional image context and history digest) is sent to the OpenAI backend;
`completion` is that backend's outcome: `.ok content` the returned message
content, `.error e` any raised exception.  The function cleans the content
and splits it into execution and undo code; on an exception it degrades to
the fixed failure placeholders. -/
def generate_lua (completion : Except (List Char) (List Char)) : List Char × List Char :=
  match completion with
  | .error _ => (cs "print(\"AI Generation Failed\")", cs "print(\"Undo not available\")")
  | .ok content =>
    let code := cleanResponse content
    if pyContains undoDelim code = true then
      let parts := splitUndo code
      let execution_code := pyStrip (parts.getD 0 [])
      let undo_code :=
        if parts.length > 1 then pyStrip (parts.getD 1 [])
        else cs "print(\"No undo code provided\")"
      (execution_code, undo_code)
    else
      (code, cs "print(\"Undo not available for this command\")")

/-- Modelled from the spec's words (§4.3 and the round-trip property), for
refinement comparison with `generate_lua`: output containing the delimiter
splits into exactly the two parts on either side of the *first* delimiter
occurrence, the undo part being the stripped entirety of the text after
that first occurrence. -/
def generate_lua_firstSplit (completion : Except (List Char) (List Char)) :
    List Char × List Char :=
  match completion with
  | .error _ => (cs "print(\"AI Generation Failed\")", cs "print(\"Undo not available\")")
  | .ok content =>
    let code := cleanResponse content
    if pyContains undoDelim code = true then
      (pyStrip (splitFirst undoDelim code).1, pyStrip (splitFirst undoDelim code).2)
    else
      (code, cs "print(\"Undo not available for this command\")")

/-- The text after the first delimiter occurrence, truncated at the next
delimiter occurrence if there is one.  This is what `parts[1]` of the
Python split denotes in terms of first occurrences. -/
def firstSegment (b : List Char) : List Char :=
  if pyContains undoDelim b = true then (splitFirst undoDelim b).1 else b

/-- A JSON-decoded Python value, as stored in `user_preferences` and
supplied by request payloads.  Covers the shapes the preference code can
meet; no validation is applied anywhere. -/
inductive PyVal where
  | pybool (b : Bool)
  | pyint (i : Int)
  | pystr (s : List Char)
  | pynone
deriving DecidableEq

/-- Python truthiness, as used by `if user_preferences['history_enabled']:`. -/
def PyVal.truthy : PyVal → Bool
  | .pybool b => b
  | .pyint i => decide (i ≠ 0)
  | .pystr s => !s.isEmpty
  | .pynone => false

/-- Python `n > v` for an `int` left operand (brain.py line 918,
`len(command_history) > user_preferences['max_history_length']`): numeric
comparison for ints and bools (a bool compares as 0 or 1), a `TypeError`
for strings or `None`. -/
def pyGtInt (n : Nat) : PyVal → Except (List Char) Bool
  | .pyint i => .ok (decide ((n : Int) > i))
  | .pybool b => .ok (decide ((n : Int) > (if b then 1 else 0)))
  | .pystr _ => .error (cs "TypeError")
  | .pynone => .error (cs "TypeError")

/-- A `command_history` entry (brain.py lines 906-914). -/
structure Entry where
  id : Nat
  timestamp : List Char
  user_prompt : List Char
  execution_code : List Char
  undo_code : List Char
  image_context : List Char
  status : List Char
deriving DecidableEq

/-- The `user_preferences` dict (brain.py lines 548-552).  Values are
dynamically typed; the update endpoint stores whatever the payload holds. -/
structure Preferences where
  include_history_in_ai : PyVal
  history_enabled : PyVal
  max_history_length : PyVal
deriving DecidableEq

/-- The initial `user_preferences` values (brain.py lines 548-552). -/
def initial_preferences : Preferences :=
  { include_history_in_ai := .pybool true
    history_enabled := .pybool true
    max_history_length := .pyint 50 }

/-- The mutable module globals owned by the dispatcher: `command_queue`
(line 540), `command_history` (line 546) and `user_preferences`. -/
structure BrainState where
  command_queue : List (List Char)
  command_history : List Entry
  prefs : Preferences
deriving DecidableEq

/-- The process-start state: empty queue, empty ledger, default preferences. -/
def initialState : BrainState := ⟨[], [], initial_preferences⟩

/-- `sanitize_and_scan` (brain.py lines 555-561) under the checked-in
configuration `ENABLE_IMAGES = False` (line 18): returns the prompt
unchanged, no extracted context, not blocked. -/
def sanitize_and_scan (user_prompt : List Char) : List Char × List Char × Bool :=
  (user_prompt, [], false)

/-- `changelevel_keywords` (brain.py line 866). -/
def changelevel_keywords : List (List Char) :=
  [cs "changelevel", cs "change level", cs "next map", cs "load map",
   cs "switch map", cs "new map", cs "RunConsoleCommand.*map"]

/-- Lowercase a Python string, `s.lower()`. -/
def lowerStr (s : List Char) : List Char := s.map Char.toLower

/-- The pre-generation denylist check (brain.py line 867):
`any(keyword.lower() in user_request.lower() for keyword in changelevel_keywords)`.
A plain (case-insensitive) substring test — the `.*` in the last keyword is
not interpreted here. -/
def keywordBlocked (user_request : List Char) : Bool :=
  changelevel_keywords.any (fun kw => pyContains (lowerStr kw) (lowerStr user_request))

/-- A token of the dangerous-pattern regex dialect: the patterns use only
literal characters, `.` (any character but newline) and `.*`. -/
inductive Tok where
  | dotstar
  | anychar
  | lit (c : Char)
deriving DecidableEq

/-- Tokenize one of the `dangerous_patterns`.  Literals are stored
lowercased, implementing `re.IGNORECASE`. -/
def tokenize : List Char → List Tok
  | [] => []
  | '.' :: '*' :: rest => Tok.dotstar :: tokenize rest
  | '.' :: rest => Tok.anychar :: tokenize rest
  | c :: rest => Tok.lit c.toLower :: tokenize rest

/-- Match a token list against the start of a string.  `.` and `.*` do not
cross a newline (Python's default `re` semantics).  Fuel-bounded; each
step shrinks `ts.length + s.length`, so `ts.length + s.length + 1`
suffices. -/
def matchHereF : Nat → List Tok → List Char → Bool
  | 0, _, _ => false
  | _ + 1, [], _ => true
  | fuel + 1, Tok.dotstar :: ts, s =>
    matchHereF fuel ts s ||
      (match s with
       | [] => false
       | c :: rest => decide (c ≠ '\n') && matchHereF fuel (Tok.dotstar :: ts) rest)
  | fuel + 1, Tok.anychar :: ts, c :: rest => decide (c ≠ '\n') && matchHereF fuel ts rest
  | _ + 1, Tok.anychar :: _, [] => false
  | fuel + 1, Tok.lit a :: ts, c :: rest => decide (c.toLower = a) && matchHereF fuel ts rest
  | _ + 1, Tok.lit _ :: _, [] => false

/-- Match a token list against the start of a string. -/
def matchHere (ts : List Tok) (s : List Char) : Bool :=
  matchHereF (ts.length + s.length + 1) ts s

/-- Try to match at every start position (regex search). -/
def reSearchFrom (ts : List Tok) : List Char → Bool
  | [] => matchHere ts []
  | c :: rest => matchHere ts (c :: rest) || reSearchFrom ts rest

/-- `re.search(pattern, s, re.IGNORECASE)` for the dangerous-pattern
dialect (literals, `.`, `.*`). -/
def reSearch (pat s : List Char) : Bool := reSearchFrom (tokenize pat) s

/-- A single-quote character, written numerically. -/
def squote : Char := Char.ofNat 39

/-- `dangerous_patterns` (brain.py line 894); the third pattern quotes
`map` in single quotes. -/
def dangerous_patterns : List (List Char) :=
  [cs "changelevel",
   cs "RunConsoleCommand.*\"map\"",
   cs "RunConsoleCommand.*" ++ (squote :: cs "map") ++ [squote],
   cs "game.ConsoleCommand.*map"]

/-- The post-generation safety check (brain.py line 895):
`any(re.search(pattern, execution_code, re.IGNORECASE) for pattern in dangerous_patterns)`. -/
def postBlocked (execution_code : List Char) : Bool :=
  dangerous_patterns.any (fun pat => reSearch pat execution_code)

/-- The ledger entry built at brain.py lines 906-914 for a request accepted
when the ledger holds `n` entries: `id` is `len(command_history) + 1`. -/
def mkCommandEntry (n : Nat) (now safe_request execution_code undo_code image_context :
    List Char) : Entry :=
  { id := n + 1, timestamp := now, user_prompt := safe_request
    execution_code := execution_code, undo_code := undo_code
    image_context := image_context, status := cs "executed" }

/-- Outcome of the `/trigger` handler. -/
inductive TriggerResult where
  /-- `({"error": "No prompt"}, 400)`: prompt missing or empty. -/
  | noPrompt
  /-- `{"status": "ignored", "message": ...}`. -/
  | ignored (message : List Char)
  /-- `{"status": "queued", "code_preview": ..., "command_id": ..., "context_found": ...}`
  (`has_undo` is the constant `True` and `was_blocked` is `False` on this path). -/
  | queued (code_preview : List Char) (command_id : Option Nat) (context_found : List Char)
  /-- An uncaught exception in the handler (HTTP 500); the mutations already
  performed persist. -/
  | serverError
deriving DecidableEq

/-- The `/trigger` handler (brain.py lines 859-928).  `prompt` is the
payload's `prompt` field; `scanRes` is the content scanner's outcome for
that prompt (equal to `sanitize_and_scan prompt`; under `ENABLE_IMAGES =
False` that is `(prompt, "", false)`, while the spec's external-scanner
contract also allows blocking); `completion` is the external generator's
outcome; `now` is `time.strftime('%Y-%m-%d %H:%M:%S')`. -/
def trigger (st : BrainState) (prompt : Option (List Char))
    (scanRes : List Char × List Char × Bool)
    (completion : Except (List Char) (List Char))
    (now : List Char) : TriggerResult × BrainState :=
  match prompt with
  | none => (.noPrompt, st)
  | some user_request =>
    if user_request = [] then (.noPrompt, st)
    else if keywordBlocked user_request = true then
      (.ignored (cs "Map/level changing is blocked for safety."), st)
    else
      match scanRes with
      | (safe_request, image_context, was_blocked) =>
        if was_blocked = true then
          (.ignored (cs "Safety protocols blocked this request."), st)
        else
          let gl := generate_lua completion
          let execution_code := gl.1
          let undo_code := gl.2
          if postBlocked execution_code = true then
            (.ignored (cs "Generated code attempted to change map (blocked)."), st)
          else
            let q' := st.command_queue ++ [execution_code]
            if PyVal.truthy st.prefs.history_enabled = true then
              let command_entry := mkCommandEntry st.command_history.length now
                safe_request execution_code undo_code image_context
              let h1 := st.command_history ++ [command_entry]
              match pyGtInt h1.length st.prefs.max_history_length with
              | .error _ =>
                (.serverError, { st with command_queue := q', command_history := h1 })
              | .ok true =>
                let h2 := h1.drop 1
                (.queued execution_code (some h2.length) image_context,
                 { st with command_queue := q', command_history := h2 })
              | .ok false =>
                (.queued execution_code (some h1.length) image_context,
                 { st with command_queue := q', command_history := h1 })
            else
              (.queued execution_code none image_context,
               { st with command_queue := q', command_history := st.command_history })

/-- Outcome of the history-management endpoints (`/api/repeat`,
`/api/undo`, `/api/force_undo`, `/api/clear_history`). -/
inductive ApiResult where
  /-- `{"status": "success", "message": ..., "command_id"?, "force_undo_code"?}`. -/
  | success (message : List Char) (command_id : Option Int)
      (force_undo_code : Option (List Char))
  /-- `({"status": "error", "message": ...}, http)`. -/
  | error (message : List Char) (http : Nat)
deriving DecidableEq

/-- The ledger lookup shared by repeat/undo/force-undo (brain.py lines 982,
1008, 1034): `next((cmd for cmd in command_history if cmd['id'] == command_id), None)`
— the first entry in insertion order whose id equals the given value. -/
def findCommand (history : List Entry) (command_id : Int) : Option Entry :=
  history.find? (fun cmd => decide ((cmd.id : Int) = command_id))

/-- The `/api/repeat` handler (brain.py lines 972-996).  `command_id` is
the payload field (`none` when absent); `if not command_id` also treats
the id `0` as missing. -/
def repeat_command (st : BrainState) (command_id : Option Int) : ApiResult × BrainState :=
  match command_id with
  | none => (.error (cs "No command ID provided") 400, st)
  | some cid =>
    if cid = 0 then (.error (cs "No command ID provided") 400, st)
    else
      match findCommand st.command_history cid with
      | none => (.error (cs "Command not found in history") 404, st)
      | some command =>
        (.success (cs "Command re-queued for execution") (some cid) none,
         { st with command_queue := st.command_queue ++ [command.execution_code] })

/-- The `/api/undo` handler (brain.py lines 998-1022): queues the stored
undo code of the first matching entry. -/
def undo_command (st : BrainState) (command_id : Option Int) : ApiResult × BrainState :=
  match command_id with
  | none => (.error (cs "No command ID provided") 400, st)
  | some cid =>
    if cid = 0 then (.error (cs "No command ID provided") 400, st)
    else
      match findCommand st.command_history cid with
      | none => (.error (cs "Command not found in history") 404, st)
      | some command =>
        (.success (cs "Undo code queued for execution") (some cid) none,
         { st with command_queue := st.command_queue ++ [command.undo_code] })

/-- The `force_undo_prompt` f-string (brain.py lines 1040-1054). -/
def force_undo_prompt (command : Entry) : List Char :=
  cs "The following command is still causing problems and needs to be forcefully stopped:\n\nOriginal Request: "
    ++ command.user_prompt
    ++ cs "\nOriginal Code: " ++ command.execution_code
    ++ cs "\nPrevious Undo Attempt: " ++ command.undo_code
    ++ cs "\n\nThis is still a problem. Generate comprehensive Lua code to:\n1. Stop ALL timers that might be related\n2. Remove ALL entities that were spawned\n3. Reset ALL player properties to default\n4. Clear ALL screen effects and UI elements\n5. Restore normal game state\n\nBe aggressive - we need to ensure this effect is completely gone.\nReturn ONLY the Lua code to execute, no explanations."

/-- The `/api/force_undo` handler (brain.py lines 1024-1082).  `gen` maps
the prompt sent to the external generator to that call's outcome; on an
exception `e` the handler answers
`({"status": "error", "message": f"AI generation failed: {str(e)}"}, 500)`
with no state change, on success it cleans the content, queues it, and
returns it — the ledger is never touched. -/
def force_undo_command (st : BrainState) (command_id : Option Int)
    (gen : List Char → Except (List Char) (List Char)) : ApiResult × BrainState :=
  match command_id with
  | none => (.error (cs "No command ID provided") 400, st)
  | some cid =>
    if cid = 0 then (.error (cs "No command ID provided") 400, st)
    else
      match findCommand st.command_history cid with
      | none => (.error (cs "Command not found in history") 404, st)
      | some command =>
        match gen (force_undo_prompt command) with
        | .error e => (.error (cs "AI generation failed: " ++ e) 500, st)
        | .ok content =>
          let force_undo_code := cleanResponse content
          (.success (cs "AI-generated force undo queued") (some cid) (some force_undo_code),
           { st with command_queue := st.command_queue ++ [force_undo_code] })

/-- Dict lookup in a JSON payload (`key in data` / `data[key]`). -/
def dictGet (k : List Char) : List (List Char × PyVal) → Option PyVal
  | [] => none
  | (k', v) :: rest => if k' = k then some v else dictGet k rest

/-- The `/api/preferences` response: `{"status": "success", "preferences": ...}`
echoing the full updated map. -/
structure PrefsResponse where
  preferences : Preferences
deriving DecidableEq

/-- The `/api/preferences` handler (brain.py lines 1084-1098): for each of
the three recognized keys, if the payload has the key, store its value
as-is; every other payload key is ignored; the response echoes the whole
updated map. -/
def update_preferences (data : List (List Char × PyVal)) (p : Preferences) :
    PrefsResponse × Preferences :=
  let p1 := match dictGet (cs "include_history_in_ai") data with
    | some v => { p with include_history_in_ai := v }
    | none => p
  let p2 := match dictGet (cs "history_enabled") data with
    | some v => { p1 with history_enabled := v }
    | none => p1
  let p3 := match dictGet (cs "max_history_length") data with
    | some v => { p2 with max_history_length := v }
    | none => p2
  (⟨p3⟩, p3)

/-- The `/api/clear_history` handler (brain.py lines 1100-1111):
`command_history = []`. -/
def clear_history (st : BrainState) : ApiResult × BrainState :=
  (.success (cs "History cleared") none none, { st with command_history := [] })

/-- A successful generator outcome with the given content. -/
def genOk (s : String) : Except (List Char) (List Char) := Except.ok (cs s)

/-- Preferences with the ledger cap set to 1 (reachable from the defaults
via `update_preferences` with payload `{"max_history_length": 1}`). -/
def demoPrefsCap1 : Preferences :=
  (update_preferences [(cs "max_history_length", PyVal.pyint 1)] initial_preferences).2

/-- First accepted request against an empty ledger capped at 1. -/
def c1r1 : TriggerResult × BrainState :=
  trigger ⟨[], [], demoPrefsCap1⟩ (some (cs "make it rain"))
    (sanitize_and_scan (cs "make it rain")) (genOk "rain()---UNDO---stopRain()")
    (cs "2026-01-01 10:00:00")

/-- Second accepted request: the append overflows the cap and evicts. -/
def c1r2 : TriggerResult × BrainState :=
  trigger c1r1.2 (some (cs "spawn a cat")) (sanitize_and_scan (cs "spawn a cat"))
    (genOk "cat()---UNDO---uncat()") (cs "2026-01-01 10:00:01")

/-- Third accepted request after an eviction cycle. -/
def c1r3 : TriggerResult × BrainState :=
  trigger c1r2.2 (some (cs "spawn a dog")) (sanitize_and_scan (cs "spawn a dog"))
    (genOk "dog()---UNDO---undog()") (cs "2026-01-01 10:00:02")

/-- An accepted request against the process-start state. -/
def c4r1 : TriggerResult × BrainState :=
  trigger initialState (some (cs "make everyone tiny"))
    (sanitize_and_scan (cs "make everyone tiny")) (genOk "tiny()---UNDO---untiny()")
    (cs "2026-01-01 11:00:00")

/-- The state after clearing the ledger. -/
def c4cleared : BrainState := (clear_history c4r1.2).2

/-- An accepted request after the clear. -/
def c4r2 : TriggerResult × BrainState :=
  trigger c4cleared (some (cs "freeze the player"))
    (sanitize_and_scan (cs "freeze the player")) (genOk "freeze()---UNDO---unfreeze()")
    (cs "2026-01-01 11:00:01")

/-- A generator response containing the undo delimiter twice. -/
def c2resp : List Char := cs "execA()\n---UNDO---\nundoB()\n---UNDO---\nundoC()"

/-- A state whose ledger holds one entry with id 1. -/
def c7st : BrainState :=
  ⟨[], [⟨1, cs "t1", cs "make me fast", cs "go()", cs "ungo()", [], cs "executed"⟩],
   initial_preferences⟩

/-- A state whose ledger holds two entries carrying the same id 3 — the
shape produced by eviction cycles under the `len + 1` id assignment (cap
2: ids 1, 2, 3 are assigned, id 1 is evicted, the next request is assigned
`len + 1 = 3` again). -/
def c9st : BrainState :=
  ⟨[], [⟨2, cs "t2", cs "spawn a cat", cs "cat()", cs "uncat()", [], cs "executed"⟩,
        ⟨3, cs "t3", cs "spawn a dog", cs "dog()", cs "undog()", [], cs "executed"⟩,
        ⟨3, cs "t4", cs "spawn a pig", cs "pig()", cs "unpig()", [], cs "executed"⟩],
   initial_preferences⟩

/-! ## Lemmas about the delimiter split -/

theorem splitFirst_snd_length_lt (sep : List Char) (hsep : sep ≠ []) :
    ∀ s : List Char, pyContains sep s = true → (splitFirst sep s).2.length < s.length := by
  intro s
  induction s with
  | nil =>
    intro h
    simp only [pyContains, List.isEmpty_iff] at h
    exact absurd h hsep
  | cons c rest ih =>
    intro h
    cases hp : sep.isPrefixOf (c :: rest) with
    | true =>
      have hlen : 0 < sep.length := List.length_pos.mpr hsep
      simp only [splitFirst, hp, if_true, List.length_drop, List.length_cons]
      omega
    | false =>
      have h' : pyContains sep rest = true := by
        simp only [pyContains, hp, Bool.false_or] at h
        exact h
      have := ih h'
      simp only [splitFirst, hp, Bool.false_eq_true, if_false, List.length_cons]
      omega

theorem splitUndoF_congr :
    ∀ (f1 f2 : Nat) (s : List Char), s.length < f1 → s.length < f2 →
      splitUndoF f1 s = splitUndoF f2 s := by
  intro f1
  induction f1 with
  | zero => intro f2 s h1 _; exact absurd h1 (Nat.not_lt_zero _)
  | succ f ih =>
    intro f2 s h1 h2
    cases f2 with
    | zero => exact absurd h2 (Nat.not_lt_zero _)
    | succ g =>
      cases hc : pyContains undoDelim s with
      | false => simp only [splitUndoF, hc, Bool.false_eq_true, if_false]
      | true =>
        have hlt := splitFirst_snd_length_lt undoDelim (by decide) s hc
        simp only [splitUndoF, hc, if_true, List.cons.injEq, true_and]
        exact ih g _ (by omega) (by omega)

theorem splitUndo_pos (s : List Char) (h : pyContains undoDelim s = true) :
    splitUndo s = (splitFirst undoDelim s).1 :: splitUndo (splitFirst undoDelim s).2 := by
  have hlt := splitFirst_snd_length_lt undoDelim (by decide) s h
  show splitUndoF (s.length + 1) s = _
  simp only [splitUndoF, h, if_true, List.cons.injEq, true_and]
  exact splitUndoF_congr s.length ((splitFirst undoDelim s).2.length + 1) _ (by omega) (by omega)

theorem splitUndo_neg (s : List Char) (h : pyContains undoDelim s = false) :
    splitUndo s = [s] := by
  show splitUndoF (s.length + 1) s = _
  simp only [splitUndoF, h, Bool.false_eq_true, if_false]

theorem splitUndo_length_pos (b : List Char) : 0 < (splitUndo b).length := by
  cases h : pyContains undoDelim b with
  | false => rw [splitUndo_neg b h]; simp
  | true => rw [splitUndo_pos b h]; simp

theorem splitUndo_getD_zero (b : List Char) : (splitUndo b).getD 0 [] = firstSegment b := by
  cases h : pyContains undoDelim b with
  | false => rw [splitUndo_neg b h]; simp [firstSegment, h]
  | true => rw [splitUndo_pos b h]; simp [firstSegment, h]

theorem find?_firstMatch {α : Type} (p : α → Bool) :
    ∀ (pre : List α) (e : α) (post : List α), (∀ x ∈ pre, p x = false) → p e = true →
      (pre ++ e :: post).find? p = some e := by
  intro pre
  induction pre with
  | nil =>
    intro e post _ he
    simpa using List.find?_cons_of_pos post he
  | cons x rest ih =>
    intro e post hpre he
    rw [List.cons_append, List.find?_cons_of_neg _ (by simp [hpre x (by simp)])]
    exact ih e post (fun y hy => hpre y (by simp [hy])) he

/-! ## The claims -/

/-- C2 (counterexample): on a generator response holding the delimiter
twice, `generate_lua` stores as undo code only the text *between* the
first and second occurrences — not, as claimed, the stripped entirety of
the text after the first occurrence (the behaviour of the spec-worded
`generate_lua_firstSplit`). -/
theorem C2_counterexample :
    generate_lua (Except.ok c2resp) = (cs "execA()", cs "undoB()") ∧
    generate_lua_firstSplit (Except.ok c2resp)
      = (cs "execA()", cs "undoB()\n---UNDO---\nundoC()") ∧
    generate_lua (Except.ok c2resp) ≠ generate_lua_firstSplit (Except.ok c2resp) := by
  decide

/-- C2 (amended): for every generator response, if the cleaned response
contains `---UNDO---` then the stored execution code is the stripped text
before the first occurrence, and the stored undo code is the stripped text
after the first occurrence *truncated at the next occurrence if any*; if
the delimiter is absent, the whole cleaned response becomes the execution
code and the undo code is the fixed placeholder. -/
theorem C2_generate_lua_split (content : List Char) :
    (pyContains undoDelim (cleanResponse content) = true →
      generate_lua (Except.ok content)
        = (pyStrip (splitFirst undoDelim (cleanResponse content)).1,
           pyStrip (firstSegment (splitFirst undoDelim (cleanResponse content)).2))) ∧
    (pyContains undoDelim (cleanResponse content) = false →
      generate_lua (Except.ok content)
        = (cleanResponse content, cs "print(\"Undo not available for this command\")")) := by
  constructor
  · intro h
    have hsplit := splitUndo_pos (cleanResponse content) h
    have hlen := splitUndo_length_pos (splitFirst undoDelim (cleanResponse content)).2
    simp only [generate_lua, h, if_true, hsplit, List.getD_cons_zero, List.getD_cons_succ,
      List.length_cons, splitUndo_getD_zero]
    rw [if_pos (by omega)]
  · intro h
    simp only [generate_lua, h, Bool.false_eq_true, if_false]

/-- C2 (witness): the amended statement evaluated on a concrete
delimiter-carrying response. -/
theorem C2_witness :
    generate_lua (Except.ok (cs "lift()---UNDO---drop()"))
      = (pyStrip (splitFirst undoDelim (cleanResponse (cs "lift()---UNDO---drop()"))).1,
         pyStrip (firstSegment
           (splitFirst undoDelim (cleanResponse (cs "lift()---UNDO---drop()"))).2)) :=
  (C2_generate_lua_split (cs "lift()---UNDO---drop()")).1 (by decide)

/-- C1 (code bug): id assignment is not strictly increasing across the
ledger's lifetime.  `id` is computed as `len(command_history) + 1`, so
once front-eviction holds the length at the cap, ids repeat: with the cap
at 1, the second and the third accepted requests are both assigned id 2 —
a fresh entry reuses an already-assigned id. -/
theorem C1_id_reuse_bug :
    c1r1.2.command_history.map Entry.id = [1] ∧
    c1r2.2.command_history
      = [⟨2, cs "2026-01-01 10:00:01", cs "spawn a cat", cs "cat()", cs "uncat()",
          [], cs "executed"⟩] ∧
    c1r3.2.command_history
      = [⟨2, cs "2026-01-01 10:00:02", cs "spawn a dog", cs "dog()", cs "undog()",
          [], cs "executed"⟩] := by
  decide

/-- C3 (counterexample): with the ledger already at its cap, the accepted
request's response carries `command_id = 1` (the post-eviction length)
while the entry appended for that request was assigned id 2. -/
theorem C3_counterexample :
    c1r2.1 = TriggerResult.queued (cs "cat()") (some 1) [] ∧
    c1r2.2.command_history.map Entry.id = [2] := by
  decide

/-- C3 (amended): for an accepted request with the ledger enabled, the
response's `command_id` equals the assigned id (`len + 1`) when the append
does not overflow the cap; when the append evicts, `command_id` is the
post-eviction length — one less than the assigned id.  With the ledger
disabled `command_id` is `none`. -/
theorem C3_command_id (st : BrainState) (p sr ic now : List Char)
    (completion : Except (List Char) (List Char))
    (hp : p ≠ []) (hkw : keywordBlocked p = false)
    (hpost : postBlocked (generate_lua completion).1 = false) :
    (PyVal.truthy st.prefs.history_enabled = true →
      pyGtInt (st.command_history.length + 1) st.prefs.max_history_length
          = Except.ok false →
      trigger st (some p) (sr, ic, false) completion now
        = (TriggerResult.queued (generate_lua completion).1
             (some (st.command_history.length + 1)) ic,
           { st with
               command_queue := st.command_queue ++ [(generate_lua completion).1]
               command_history := st.command_history
                 ++ [mkCommandEntry st.command_history.length now sr
                       (generate_lua completion).1 (generate_lua completion).2 ic] })) ∧
    (PyVal.truthy st.prefs.history_enabled = true →
      pyGtInt (st.command_history.length + 1) st.prefs.max_history_length
          = Except.ok true →
      trigger st (some p) (sr, ic, false) completion now
        = (TriggerResult.queued (generate_lua completion).1
             (some st.command_history.length) ic,
           { st with
               command_queue := st.command_queue ++ [(generate_lua completion).1]
               command_history := (st.command_history
                 ++ [mkCommandEntry st.command_history.length now sr
                       (generate_lua completion).1 (generate_lua completion).2 ic]).drop 1 })) ∧
    (PyVal.truthy st.prefs.history_enabled = false →
      trigger st (some p) (sr, ic, false) completion now
        = (TriggerResult.queued (generate_lua completion).1 none ic,
           { st with command_queue := st.command_queue ++ [(generate_lua completion).1] })) := by
  refine ⟨?_, ?_, ?_⟩
  · intro hen hgt
    simp only [trigger, hp, hkw, Bool.false_eq_true, if_false, if_neg hp, hen, if_true,
      hpost, List.length_append, List.length_cons, List.length_nil, Nat.zero_add, hgt]
  · intro hen hgt
    simp only [trigger, hp, hkw, Bool.false_eq_true, if_false, if_neg hp, hen, if_true,
      hpost, List.length_append, List.length_cons, List.length_nil, Nat.zero_add, hgt,
      List.length_drop, Nat.add_sub_cancel]
  · intro hen
    simp only [trigger, hp, hkw, Bool.false_eq_true, if_false, if_neg hp, hen,
      hpost, if_true]

/-- C3 (witness): the eviction arm of the amended statement evaluated on a
concrete run — ledger at cap 1 with one entry, second request accepted. -/
theorem C3_witness :
    trigger c1r1.2 (some (cs "spawn a cat")) (cs "spawn a cat", [], false)
        (genOk "cat()---UNDO---uncat()") (cs "2026-01-01 10:00:01")
      = (TriggerResult.queued (generate_lua (genOk "cat()---UNDO---uncat()")).1
           (some c1r1.2.command_history.length) [],
         { c1r1.2 with
             command_queue := c1r1.2.command_queue
               ++ [(generate_lua (genOk "cat()---UNDO---uncat()")).1]
             command_history := (c1r1.2.command_history
               ++ [mkCommandEntry c1r1.2.command_history.length (cs "2026-01-01 10:00:01")
                     (cs "spawn a cat") (generate_lua (genOk "cat()---UNDO---uncat()")).1
                     (generate_lua (genOk "cat()---UNDO---uncat()")).2 []]).drop 1 }) :=
  (C3_command_id c1r1.2 (cs "spawn a cat") (cs "spawn a cat") [] (cs "2026-01-01 10:00:01")
      (genOk "cat()---UNDO---uncat()") (by decide) (by decide) (by decide)).2.1
    (by decide) rfl

/-- C4 (code bug): `clear_history` resets id assignment.  Since ids are
`len(command_history) + 1`, the first command accepted after a clear is
assigned id 1 again, not an id greater than those assigned before the
clear. -/
theorem C4_clear_resets_ids_bug :
    c4r1.2.command_history.map Entry.id = [1] ∧
    c4cleared.command_history = [] ∧
    c4r2.2.command_history
      = [⟨1, cs "2026-01-01 11:00:01", cs "freeze the player", cs "freeze()",
          cs "unfreeze()", [], cs "executed"⟩] := by
  decide

/-- C5: every request rejected by the pre-generation denylist, by the
scanner blocking, or by the post-generation pattern check on the generated
execution code terminates with an "ignored" outcome and leaves the whole
state (queue, ledger, preferences) exactly unchanged. -/
theorem C5_rejection_leaves_state_unchanged (st : BrainState) (p sr ic : List Char)
    (b : Bool) (completion : Except (List Char) (List Char)) (now : List Char)
    (hp : p ≠ []) :
    (keywordBlocked p = true →
      trigger st (some p) (sr, ic, b) completion now
        = (TriggerResult.ignored (cs "Map/level changing is blocked for safety."), st)) ∧
    (keywordBlocked p = false → b = true →
      trigger st (some p) (sr, ic, b) completion now
        = (TriggerResult.ignored (cs "Safety protocols blocked this request."), st)) ∧
    (keywordBlocked p = false → b = false →
      postBlocked (generate_lua completion).1 = true →
      trigger st (some p) (sr, ic, b) completion now
        = (TriggerResult.ignored
             (cs "Generated code attempted to change map (blocked)."), st)) := by
  refine ⟨?_, ?_, ?_⟩
  · intro hkw
    simp only [trigger, if_neg hp, hkw, if_true]
  · intro hkw hb
    simp only [trigger, if_neg hp, hkw, Bool.false_eq_true, if_false, hb, if_true]
  · intro hkw hb hpost
    simp only [trigger, if_neg hp, hkw, Bool.false_eq_true, if_false, hb, hpost, if_true]

/-- C5 (witness): the three rejection paths evaluated on concrete requests:
a denylisted prompt, a scanner block, and generated code that tries to
change the level. -/
theorem C5_witness :
    trigger initialState (some (cs "please changelevel now"))
        (cs "please changelevel now", [], false) (genOk "x()") (cs "t")
      = (TriggerResult.ignored (cs "Map/level changing is blocked for safety."),
         initialState) ∧
    trigger initialState (some (cs "show me an image"))
        (cs "IMAGE BLOCKED", [], true) (genOk "x()") (cs "t")
      = (TriggerResult.ignored (cs "Safety protocols blocked this request."),
         initialState) ∧
    trigger initialState (some (cs "go to the next area"))
        (cs "go to the next area", [], false)
        (genOk "RunConsoleCommand(\"changelevel\", \"d1_trainstation_02\")") (cs "t")
      = (TriggerResult.ignored (cs "Generated code attempted to change map (blocked)."),
         initialState) :=
  ⟨(C5_rejection_leaves_state_unchanged initialState (cs "please changelevel now")
      (cs "please changelevel now") [] false (genOk "x()") (cs "t") (by decide)).1
      (by decide),
   (C5_rejection_leaves_state_unchanged initialState (cs "show me an image")
      (cs "IMAGE BLOCKED") [] true (genOk "x()") (cs "t") (by decide)).2.1
      (by decide) rfl,
   (C5_rejection_leaves_state_unchanged initialState (cs "go to the next area")
      (cs "go to the next area") [] false
      (genOk "RunConsoleCommand(\"changelevel\", \"d1_trainstation_02\")") (cs "t")
      (by decide)).2.2 (by decide) rfl (by decide)⟩

/-- C6: for every accepted request the execution queue grows by exactly the
generated execution code, whatever the `history_enabled` preference holds;
and when `history_enabled` is falsy the request succeeds with
`command_id = None` and the ledger is left unchanged. -/
theorem C6_queue_gains_one (st : BrainState) (p sr ic now : List Char)
    (completion : Except (List Char) (List Char))
    (hp : p ≠ []) (hkw : keywordBlocked p = false)
    (hpost : postBlocked (generate_lua completion).1 = false) :
    (trigger st (some p) (sr, ic, false) completion now).2.command_queue
      = st.command_queue ++ [(generate_lua completion).1] ∧
    (PyVal.truthy st.prefs.history_enabled = false →
      trigger st (some p) (sr, ic, false) completion now
        = (TriggerResult.queued (generate_lua completion).1 none ic,
           { st with command_queue := st.command_queue ++ [(generate_lua completion).1] })) := by
  constructor
  · simp only [trigger, if_neg hp, hkw, Bool.false_eq_true, if_false, hpost]
    split
    · split <;> rfl
    · rfl
  · intro hen
    simp only [trigger, if_neg hp, hkw, Bool.false_eq_true, if_false, hpost, hen]

/-- C6 (witness): a concrete accepted request with history tracking turned
off — the queue gains the generated code, the ledger stays empty. -/
theorem C6_witness :
    trigger ⟨[], [], ⟨.pybool true, .pybool false, .pyint 50⟩⟩ (some (cs "make it rain"))
        (cs "make it rain", [], false) (genOk "rain()---UNDO---stopRain()") (cs "t")
      = (TriggerResult.queued (generate_lua (genOk "rain()---UNDO---stopRain()")).1 none [],
         { (⟨[], [], ⟨.pybool true, .pybool false, .pyint 50⟩⟩ : BrainState) with
             command_queue := [] ++ [(generate_lua (genOk "rain()---UNDO---stopRain()")).1] }) :=
  (C6_queue_gains_one ⟨[], [], ⟨.pybool true, .pybool false, .pyint 50⟩⟩ (cs "make it rain")
      (cs "make it rain") [] (cs "t") (genOk "rain()---UNDO---stopRain()")
      (by decide) (by decide) (by decide)).2 (by decide)

/-- C7 (counterexample): the id 0 is absent from every ledger, yet
`repeat_command` answers it with the missing-id error (`"No command ID
provided"`, HTTP 400), not the not-found error — `if not command_id`
treats the integer 0 as an absent payload field. -/
theorem C7_repeat_zero_counterexample :
    findCommand initialState.command_history 0 = none ∧
    repeat_command initialState (some 0)
      = (ApiResult.error (cs "No command ID provided") 400, initialState) ∧
    (ApiResult.error (cs "No command ID provided") 400
       ≠ ApiResult.error (cs "Command not found in history") 404) := by
  decide

/-- C7 (amended): for every nonzero id present in the ledger, `Repeat`
called twice enqueues that entry's execution code twice, in call order,
mutating nothing but the queue; for every nonzero id absent from the
ledger, `Repeat` fails with the not-found error and changes nothing; for
the id 0, `Repeat` fails with the missing-id error instead (and also
changes nothing). -/
theorem C7_repeat_semantics (st : BrainState) (cid : Int) (hc : cid ≠ 0) :
    (∀ cmd, findCommand st.command_history cid = some cmd →
      repeat_command st (some cid)
          = (ApiResult.success (cs "Command re-queued for execution") (some cid) none,
             { st with command_queue := st.command_queue ++ [cmd.execution_code] }) ∧
      (repeat_command (repeat_command st (some cid)).2 (some cid)).2
          = { st with command_queue :=
                st.command_queue ++ [cmd.execution_code, cmd.execution_code] }) ∧
    (findCommand st.command_history cid = none →
      repeat_command st (some cid)
        = (ApiResult.error (cs "Command not found in history") 404, st)) ∧
    (repeat_command st (some 0)
      = (ApiResult.error (cs "No command ID provided") 400, st)) := by
  refine ⟨?_, ?_, ?_⟩
  · intro cmd hf
    have he : repeat_command st (some cid)
        = (ApiResult.success (cs "Command re-queued for execution") (some cid) none,
           { st with command_queue := st.command_queue ++ [cmd.execution_code] }) := by
      simp only [repeat_command, if_neg hc, hf]
    refine ⟨he, ?_⟩
    rw [he]
    simp only [repeat_command, if_neg hc, hf]
    simp [List.append_assoc]
  · intro hf
    simp only [repeat_command, if_neg hc, hf]
  · simp [repeat_command]

/-- C7 (witness): the amended statement evaluated on a ledger holding one
entry with id 1: repeating id 1 twice queues its code twice, repeating
the absent id 5 is a not-found error. -/
theorem C7_witness :
    (repeat_command c7st (some 1)
        = (ApiResult.success (cs "Command re-queued for execution") (some 1) none,
           { c7st with command_queue := c7st.command_queue ++ [cs "go()"] }) ∧
      (repeat_command (repeat_command c7st (some 1)).2 (some 1)).2
        = { c7st with command_queue := c7st.command_queue ++ [cs "go()", cs "go()"] }) ∧
    repeat_command c7st (some 5)
      = (ApiResult.error (cs "Command not found in history") 404, c7st) :=
  ⟨(C7_repeat_semantics c7st 1 (by decide)).1
      ⟨1, cs "t1", cs "make me fast", cs "go()", cs "ungo()", [], cs "executed"⟩ (by decide),
   (C7_repeat_semantics c7st 5 (by decide)).2.1 (by decide)⟩

/-- C8: for an id present in the ledger, `force_undo_command` surfaces a
generator failure as an explicit 500 error with the state unchanged, and
on generator success queues the cleaned generated code without touching
the ledger. -/
theorem C8_force_undo (st : BrainState) (cid : Int) (hc : cid ≠ 0) (cmd : Entry)
    (hf : findCommand st.command_history cid = some cmd)
    (gen : List Char → Except (List Char) (List Char)) :
    (∀ e, gen (force_undo_prompt cmd) = Except.error e →
      force_undo_command st (some cid) gen
        = (ApiResult.error (cs "AI generation failed: " ++ e) 500, st)) ∧
    (∀ content, gen (force_undo_prompt cmd) = Except.ok content →
      force_undo_command st (some cid) gen
        = (ApiResult.success (cs "AI-generated force undo queued") (some cid)
             (some (cleanResponse content)),
           { st with command_queue := st.command_queue ++ [cleanResponse content] })) := by
  constructor
  · intro e hg
    simp only [force_undo_command, if_neg hc, hf, hg]
  · intro content hg
    simp only [force_undo_command, if_neg hc, hf, hg]

/-- C8 (witness): both generator outcomes evaluated on a concrete ledger:
an exception yields the explicit 500 error and no state change, a
successful generation queues the cleaned code with the ledger untouched. -/
theorem C8_witness :
    force_undo_command c7st (some 1) (fun _ => Except.error (cs "boom"))
      = (ApiResult.error (cs "AI generation failed: boom") 500, c7st) ∧
    force_undo_command c7st (some 1) (fun _ => Except.ok (cs "fix()"))
      = (ApiResult.success (cs "AI-generated force undo queued") (some 1)
           (some (cleanResponse (cs "fix()"))),
         { c7st with command_queue := c7st.command_queue ++ [cleanResponse (cs "fix()")] }) :=
  ⟨(C8_force_undo c7st 1 (by decide)
      ⟨1, cs "t1", cs "make me fast", cs "go()", cs "ungo()", [], cs "executed"⟩ (by decide)
      (fun _ => Except.error (cs "boom"))).1 (cs "boom") rfl,
   (C8_force_undo c7st 1 (by decide)
      ⟨1, cs "t1", cs "make me fast", cs "go()", cs "ungo()", [], cs "executed"⟩ (by decide)
      (fun _ => Except.ok (cs "fix()"))).2 (cs "fix()") rfl⟩

/-- C9: repeat, undo and force-undo resolve a command id by scanning the
ledger in insertion order and act on the *first* entry whose id matches:
if the ledger is `pre ++ e :: post` with no id match in `pre` and `e`
matching, repeat queues `e`'s execution code, undo queues `e`'s undo code,
and force-undo prompts the generator about `e` — so with duplicate ids the
oldest-inserted matching entry wins. -/
theorem C9_first_match_wins (st : BrainState) (cid : Int) (hc : cid ≠ 0)
    (pre post : List Entry) (e : Entry)
    (hh : st.command_history = pre ++ e :: post)
    (hpre : ∀ x ∈ pre, (x.id : Int) ≠ cid) (he : (e.id : Int) = cid)
    (gen : List Char → Except (List Char) (List Char)) :
    repeat_command st (some cid)
      = (ApiResult.success (cs "Command re-queued for execution") (some cid) none,
         { st with command_queue := st.command_queue ++ [e.execution_code] }) ∧
    undo_command st (some cid)
      = (ApiResult.success (cs "Undo code queued for execution") (some cid) none,
         { st with command_queue := st.command_queue ++ [e.undo_code] }) ∧
    (∀ content, gen (force_undo_prompt e) = Except.ok content →
      force_undo_command st (some cid) gen
        = (ApiResult.success (cs "AI-generated force undo queued") (some cid)
             (some (cleanResponse content)),
           { st with command_queue := st.command_queue ++ [cleanResponse content] })) := by
  have hfind : findCommand st.command_history cid = some e := by
    rw [hh]
    exact find?_firstMatch _ pre e post
      (fun x hx => decide_eq_false (hpre x hx)) (decide_eq_true he)
  refine ⟨?_, ?_, ?_⟩
  · simp only [repeat_command, if_neg hc, hfind]
  · simp only [undo_command, if_neg hc, hfind]
  · intro content hg
    simp only [force_undo_command, if_neg hc, hfind, hg]

/-- C9 (witness): on a ledger with two entries carrying id 3, repeat and
undo of id 3 act on the older entry (the dog, not the pig). -/
theorem C9_witness :
    repeat_command c9st (some 3)
      = (ApiResult.success (cs "Command re-queued for execution") (some 3) none,
         { c9st with command_queue := c9st.command_queue ++ [cs "dog()"] }) ∧
    undo_command c9st (some 3)
      = (ApiResult.success (cs "Undo code queued for execution") (some 3) none,
         { c9st with command_queue := c9st.command_queue ++ [cs "undog()"] }) :=
  ⟨(C9_first_match_wins c9st 3 (by decide)
      [⟨2, cs "t2", cs "spawn a cat", cs "cat()", cs "uncat()", [], cs "executed"⟩]
      [⟨3, cs "t4", cs "spawn a pig", cs "pig()", cs "unpig()", [], cs "executed"⟩]
      ⟨3, cs "t3", cs "spawn a dog", cs "dog()", cs "undog()", [], cs "executed"⟩
      (by decide) (by decide) (by decide) (fun _ => Except.ok (cs "fix()"))).1,
   (C9_first_match_wins c9st 3 (by decide)
      [⟨2, cs "t2", cs "spawn a cat", cs "cat()", cs "uncat()", [], cs "executed"⟩]
      [⟨3, cs "t4", cs "spawn a pig", cs "pig()", cs "unpig()", [], cs "executed"⟩]
      ⟨3, cs "t3", cs "spawn a dog", cs "dog()", cs "undog()", [], cs "executed"⟩
      (by decide) (by decide) (by decide) (fun _ => Except.ok (cs "fix()"))).2.1⟩

/-- C10: the preferences update stores, unvalidated, whatever value the
payload supplies for each of the three recognized keys (so a zero,
negative or non-integer cap is stored as-is), ignores every other payload
key, and echoes the full updated map; the stored cap value is exactly
what the accepted-request path compares the ledger length against, so a
zero or negative stored int forces eviction on every append. -/
theorem C10_preferences_update (data : List (List Char × PyVal)) (p : Preferences) :
    (∀ v, dictGet (cs "include_history_in_ai") data = some v →
      (update_preferences data p).2.include_history_in_ai = v) ∧
    (∀ v, dictGet (cs "history_enabled") data = some v →
      (update_preferences data p).2.history_enabled = v) ∧
    (∀ v, dictGet (cs "max_history_length") data = some v →
      (update_preferences data p).2.max_history_length = v) ∧
    (∀ (k : List Char) (v : PyVal), k ≠ cs "include_history_in_ai" →
      k ≠ cs "history_enabled" → k ≠ cs "max_history_length" →
      update_preferences ((k, v) :: data) p = update_preferences data p) ∧
    ((update_preferences data p).1.preferences = (update_preferences data p).2) ∧
    (∀ (st : BrainState) (q sr ic now : List Char)
        (completion : Except (List Char) (List Char)) (m : Int),
      q ≠ [] → keywordBlocked q = false →
      postBlocked (generate_lua completion).1 = false →
      PyVal.truthy st.prefs.history_enabled = true →
      st.prefs.max_history_length = PyVal.pyint m →
      (((st.command_history.length : Int) + 1 > m →
        (trigger st (some q) (sr, ic, false) completion now).2.command_history
          = (st.command_history ++ [mkCommandEntry st.command_history.length now sr
               (generate_lua completion).1 (generate_lua completion).2 ic]).drop 1) ∧
       (¬((st.command_history.length : Int) + 1 > m) →
        (trigger st (some q) (sr, ic, false) completion now).2.command_history
          = st.command_history ++ [mkCommandEntry st.command_history.length now sr
               (generate_lua completion).1 (generate_lua completion).2 ic]))) := by
  refine ⟨?_, ?_, ?_, ?_, ?_, ?_⟩
  · intro v hv
    cases h2 : dictGet (cs "history_enabled") data <;>
      cases h3 : dictGet (cs "max_history_length") data <;>
        simp_all [update_preferences]
  · intro v hv
    cases h1 : dictGet (cs "include_history_in_ai") data <;>
      cases h3 : dictGet (cs "max_history_length") data <;>
        simp_all [update_preferences]
  · intro v hv
    cases h1 : dictGet (cs "include_history_in_ai") data <;>
      cases h2 : dictGet (cs "history_enabled") data <;>
        simp_all [update_preferences]
  · intro k v hk1 hk2 hk3
    simp only [update_preferences, dictGet, if_neg hk1, if_neg hk2, if_neg hk3]
  · rfl
  · intro st q sr ic now completion m hq hkw hpost hen hmax
    constructor
    · intro hm
      have hgt : pyGtInt (st.command_history.length + 1) st.prefs.max_history_length
          = Except.ok true := by
        rw [hmax]
        simp only [pyGtInt, Except.ok.injEq, decide_eq_true_eq]
        push_cast
        omega
      simp only [trigger, if_neg hq, hkw, Bool.false_eq_true, if_false, hpost, hen,
        if_true, List.length_append, List.length_cons, List.length_nil, Nat.zero_add, hgt]
    · intro hm
      have hgt : pyGtInt (st.command_history.length + 1) st.prefs.max_history_length
          = Except.ok false := by
        rw [hmax]
        simp only [pyGtInt, Except.ok.injEq, decide_eq_false_iff_not]
        push_cast
        omega
      simp only [trigger, if_neg hq, hkw, Bool.false_eq_true, if_false, hpost, hen,
        if_true, List.length_append, List.length_cons, List.length_nil, Nat.zero_add, hgt]

/-- C10 (witness): a payload storing the cap 0 and a string cap is
accepted verbatim, an unrecognized key is ignored, and a stored cap of 0
makes every accepted append evict immediately (ledger stays empty). -/
theorem C10_witness :
    (update_preferences [(cs "max_history_length", PyVal.pyint 0)]
        initial_preferences).2.max_history_length = PyVal.pyint 0 ∧
    (update_preferences [(cs "max_history_length", PyVal.pystr (cs "ten"))]
        initial_preferences).2.max_history_length = PyVal.pystr (cs "ten") ∧
    update_preferences
        ((cs "junk", PyVal.pybool true) :: [(cs "max_history_length", PyVal.pyint 0)])
        initial_preferences
      = update_preferences [(cs "max_history_length", PyVal.pyint 0)] initial_preferences ∧
    (trigger ⟨[], [], ⟨.pybool true, .pybool true, .pyint 0⟩⟩ (some (cs "make it rain"))
        (cs "make it rain", [], false) (genOk "rain()---UNDO---stopRain()")
        (cs "t")).2.command_history
      = (([] : List Entry) ++ [mkCommandEntry (List.length ([] : List Entry)) (cs "t")
           (cs "make it rain") (generate_lua (genOk "rain()---UNDO---stopRain()")).1
           (generate_lua (genOk "rain()---UNDO---stopRain()")).2 []]).drop 1 :=
  ⟨((C10_preferences_update [(cs "max_history_length", PyVal.pyint 0)]
      initial_preferences).2.2.1 (PyVal.pyint 0) (by decide)),
   ((C10_preferences_update [(cs "max_history_length", PyVal.pystr (cs "ten"))]
      initial_preferences).2.2.1 (PyVal.pystr (cs "ten")) (by decide)),
   ((C10_preferences_update [(cs "max_history_length", PyVal.pyint 0)]
      initial_preferences).2.2.2.1 (cs "junk") (PyVal.pybool true)
      (by decide) (by decide) (by decide)),
   (((C10_preferences_update [] initial_preferences).2.2.2.2.2
      ⟨[], [], ⟨.pybool true, .pybool true, .pyint 0⟩⟩ (cs "make it rain")
      (cs "make it rain") [] (cs "t") (genOk "rain()---UNDO---stopRain()") 0
      (by decide) (by decide) (by decide) (by decide) rfl).1 (by decide))⟩
